import Mathlib

/-!
Verification of the LawyerUp authentication subsystem.

Shallow embedding of the secured `User` model (brute-force / password-policy /
MFA instance methods) and of the auth controller endpoints (`login`,
`loginAdmin`, `changePassword`, `mfaSetup`, `mfaConfirm`, `mfaVerify`,
`mfaDisable`).  Timestamps are naturals (milliseconds since epoch, the JS
`Date.now()` view).  External primitives (bcrypt compare/hash, sha256, TOTP
verification, the random hex generator) are explicit function parameters:
they are deterministic black boxes from the controller's point of view.
-/

namespace LawyerUp

/-- The persisted user credential record (secured `userSchema`): the current
bcrypt password hash, bounded password history, expiry data, brute-force
lockout counters and the MFA fields. -/
structure UserCred where
  password : String
  passwordHistory : List String
  passwordChangedAt : Nat
  passwordExpiresAt : Option Nat
  failedLoginAttempts : Nat
  lockUntil : Option Nat
  mfaEnabled : Bool
  mfaSecret : Option String
  mfaTempSecret : Option String
  mfaRecoveryCodes : List String
deriving Repr, DecidableEq

/-- `userSchema.methods.isLocked`: true when `lockUntil` is set and in the
future; a `lockUntil` at or before `now` is lazily cleared (together with the
attempt counter) on the in-memory document, and the method returns false. -/
def isLocked (now : Nat) (u : UserCred) : Bool × UserCred :=
  match u.lockUntil with
  | some t =>
      if now < t then (true, u)
      else (false, { u with lockUntil := none, failedLoginAttempts := 0 })
  | none => (false, u)

/-- `userSchema.methods.registerFailedLogin`: reset an expired lock, increment
the failure counter, and set `lockUntil := now + lockMinutes` once the counter
reaches `maxAttempts` while no lock is currently recorded. -/
def registerFailedLogin (now maxAttempts lockMinutes : Nat) (u : UserCred) : UserCred :=
  let u1 :=
    match u.lockUntil with
    | some t =>
        if t ≤ now then { u with lockUntil := none, failedLoginAttempts := 0 } else u
    | none => u
  let u2 := { u1 with failedLoginAttempts := u1.failedLoginAttempts + 1 }
  if maxAttempts ≤ u2.failedLoginAttempts ∧ u2.lockUntil = none then
    { u2 with lockUntil := some (now + lockMinutes * 60 * 1000) }
  else u2

/-- `userSchema.methods.resetLoginAttempts`: zero the counter and clear the
lock. -/
def resetLoginAttempts (u : UserCred) : UserCred :=
  { u with failedLoginAttempts := 0, lockUntil := none }

/-- `userSchema.methods.isPasswordExpired`: a null expiry never expires. -/
def isPasswordExpired (now : Nat) (u : UserCred) : Bool :=
  match u.passwordExpiresAt with
  | none => false
  | some t => t ≤ now

/-- `userSchema.methods.isPasswordReused`: compare the plaintext against each
hash in the history via the supplied compare function. -/
def isPasswordReused (plainPassword : String)
    (compareFn : String → String → Bool) (u : UserCred) : Bool :=
  u.passwordHistory.any (fun hashed => compareFn plainPassword hashed)

/-- `userSchema.methods.updatePassword`: prepend the outgoing hash to the
history, truncate to `historyCount`, install the new hash and recompute the
expiry (`expiryDays = 0` models the JS falsy/null "never expires" case). -/
def updatePassword (now : Nat) (newHashedPassword : String)
    (historyCount expiryDays : Nat) (u : UserCred) : UserCred :=
  let hist :=
    if u.password = "" then u.passwordHistory
    else
      let h := u.password :: u.passwordHistory
      if historyCount < h.length then h.take historyCount else h
  { u with
      password := newHashedPassword
      passwordHistory := hist
      passwordChangedAt := now
      passwordExpiresAt :=
        if 0 < expiryDays then some (now + expiryDays * 24 * 60 * 60 * 1000)
        else none }

/-! ### Password policy (utils/passwordPolicy.js) -/

def PASSWORD_MIN_LENGTH : Nat := 8

def PASSWORD_MAX_LENGTH : Nat := 128

def PASSWORD_HISTORY_COUNT : Nat := 5

def PASSWORD_EXPIRY_DAYS : Nat := 90

def specialChars : List Char := "!@#$%^&*()_+-=[]\x7b\x7d|;:,.<>?".toList

def ERR_TOO_SHORT : String := "Password must be at least 8 characters long"

def ERR_TOO_LONG : String := "Password must be no more than 128 characters long"

def ERR_MISSING_UPPERCASE : String := "Password must contain at least one uppercase letter"

def ERR_MISSING_LOWERCASE : String := "Password must contain at least one lowercase letter"

def ERR_MISSING_NUMBER : String := "Password must contain at least one number"

def ERR_MISSING_SPECIAL_CHAR : String :=
  "Password must contain at least one special character"

def ERR_REUSED_PASSWORD : String :=
  "Password cannot be the same as your last 5 passwords"

def ERR_EXPIRED_PASSWORD : String :=
  "Your password has expired. Please change it to continue"

/-- `validatePassword`: collect all policy violations (length bounds, one
uppercase, one lowercase, one digit, one special character); valid iff the
violation list is empty. -/
def validatePassword (password : String) : Bool × List String :=
  let cs := password.toList
  let e1 : List String :=
    if password = "" ∨ password.length < PASSWORD_MIN_LENGTH then [ERR_TOO_SHORT] else []
  let e2 : List String :=
    if password ≠ "" ∧ PASSWORD_MAX_LENGTH < password.length then [ERR_TOO_LONG] else []
  let e3 : List String :=
    if password ≠ "" ∧ ¬ cs.any (fun c => 'A' ≤ c ∧ c ≤ 'Z') then [ERR_MISSING_UPPERCASE] else []
  let e4 : List String :=
    if password ≠ "" ∧ ¬ cs.any (fun c => 'a' ≤ c ∧ c ≤ 'z') then [ERR_MISSING_LOWERCASE] else []
  let e5 : List String :=
    if password ≠ "" ∧ ¬ cs.any (fun c => '0' ≤ c ∧ c ≤ '9') then [ERR_MISSING_NUMBER] else []
  let e6 : List String :=
    if password ≠ "" ∧ ¬ cs.any (fun c => c ∈ specialChars) then [ERR_MISSING_SPECIAL_CHAR] else []
  let errors := e1 ++ e2 ++ e3 ++ e4 ++ e5 ++ e6
  (errors.length = 0, errors)

/-! ### Login endpoints (controllers/authController.js) -/

/-- An HTTP response as produced by the login endpoints: status code, the
body's `message` field, and whichever payload fields the branch includes.
`user` holds the Mongoose user document that the handler serializes into
the body with `res.json`; `login`/`loginAdmin` fetch that document with
`select(+password)`, so serialization includes the `password` field. -/
structure Resp where
  status : Nat
  message : String
  user : Option UserCred := none
  mfaRequired : Bool := false
  email : Option String := none
  passwordExpiresAt : Option Nat := none
  lockUntil : Option Nat := none
  retryAfter : Option Nat := none
  passwordExpired : Bool := false
deriving Repr, DecidableEq

def invalidCredMsg : String := "Invalid email or password"

def lockedMsg (minutes : Nat) : String :=
  "Account is temporarily locked due to multiple failed login attempts. Please try again in "
    ++ toString minutes ++ " minute(s)."

def justLockedMsg (minutes : Nat) : String :=
  "Account has been temporarily locked due to multiple failed login attempts. Please try again in "
    ++ toString minutes ++ " minute(s)."

/-- `Math.ceil((lockUntil - Date.now()) / (1000 * 60))` on naturals. -/
def minutesRemaining (now lockUntil : Nat) : Nat :=
  (lockUntil - now + (1000 * 60 - 1)) / (1000 * 60)

/-- `exports.login`.  `found` is the result of
`User.findOne(email).select(+password)` (`none` = unknown email);
`compareFn` models `bcrypt.compare` (plaintext, stored hash).  Returns the
response together with the persisted user record: `registerFailedLogin` and
`resetLoginAttempts` save the document, while `isLocked` mutates only the
in-memory copy. -/
def login (now : Nat) (found : Option UserCred) (password : String)
    (compareFn : String → String → Bool) : Resp × Option UserCred :=
  match found with
  | none => ({ status := 401, message := invalidCredMsg }, none)
  | some user0 =>
      let lk := isLocked now user0
      if lk.1 then
        let lu := user0.lockUntil.getD 0
        let mins := minutesRemaining now lu
        ({ status := 423, message := lockedMsg mins,
           lockUntil := some lu, retryAfter := some mins }, some user0)
      else
        let user := lk.2
        if ¬ compareFn password user.password then
          let saved := registerFailedLogin now 5 30 user
          let lk2 := isLocked now saved
          if lk2.1 then
            let lu := saved.lockUntil.getD 0
            let mins := minutesRemaining now lu
            ({ status := 423, message := justLockedMsg mins,
               lockUntil := some lu, retryAfter := some mins }, some saved)
          else
            ({ status := 401, message := invalidCredMsg }, some saved)
        else
          let saved := resetLoginAttempts user
          if isPasswordExpired now saved then
            ({ status := 403, message := ERR_EXPIRED_PASSWORD,
               passwordExpired := true }, some saved)
          else if saved.mfaEnabled then
            ({ status := 200, message := "", mfaRequired := true,
               passwordExpiresAt := saved.passwordExpiresAt }, some saved)
          else
            ({ status := 200, message := "", user := some saved,
               passwordExpiresAt := saved.passwordExpiresAt }, some saved)

/-- `exports.loginAdmin`.  `found` is
`User.findOne(email, role admin).select(+password)` (`none` = no admin
account under that email). -/
def loginAdmin (found : Option UserCred) (password : String)
    (compareFn : String → String → Bool) : Resp :=
  match found with
  | none => { status := 404, message := "Admin not found or unauthorized" }
  | some user =>
      if ¬ compareFn password user.password then
        { status := 401, message := "Invalid password" }
      else
        { status := 200, message := "", user := some user }

/-! ### Change-password endpoint -/

inductive ChangePwResp where
  | badRequest (message : String) (errors : List String)
  | unauthorized (message : String)
  | ok (message : String) (passwordExpiresAt : Option Nat)
deriving Repr, DecidableEq

/-- `exports.changePassword`: verify the current password, validate the new
one, reject a new password equal to the current one or found in the history,
then rotate via `updatePassword` with history cap 5 and the 90-day expiry. -/
def changePassword (now : Nat) (u : UserCred) (currentPassword newPassword : String)
    (compareFn : String → String → Bool) (hashFn : String → String) :
    ChangePwResp × UserCred :=
  if currentPassword = "" ∨ newPassword = "" then
    (.badRequest "Current password and new password are required" [], u)
  else if ¬ compareFn currentPassword u.password then
    (.unauthorized "Current password is incorrect", u)
  else
    let v := validatePassword newPassword
    if ¬ v.1 then
      (.badRequest "New password does not meet requirements" v.2, u)
    else if compareFn newPassword u.password then
      (.badRequest "New password must be different from current password" [], u)
    else if isPasswordReused newPassword compareFn u then
      (.badRequest ERR_REUSED_PASSWORD [], u)
    else
      let u2 := updatePassword now (hashFn newPassword) 5 PASSWORD_EXPIRY_DAYS u
      (.ok "Password changed successfully" u2.passwordExpiresAt, u2)

/-! ### MFA endpoints -/

/-- JS `String.prototype.toUpperCase` (character-wise upper-casing). -/
def toUpperCase (s : String) : String := ⟨s.data.map Char.toUpper⟩

/-- JS truthiness of an optional string body field (`undefined` and the empty
string are falsy). -/
def strTruthy : Option String → Bool
  | none => false
  | some s => s ≠ ""

/-- `Array.prototype.findIndex` restricted to a predicate over strings:
index of the first element matching, else `none`. -/
def findIndex (p : String → Bool) : List String → Option Nat
  | [] => none
  | a :: l => if p a then some 0 else (findIndex p l).map (· + 1)

inductive MfaSetupResult where
  | alreadyEnabled
  | ok (secret : String)
deriving Repr, DecidableEq

/-- `exports.mfaSetup`: reject when MFA is already enabled, otherwise store a
fresh TOTP secret in `mfaTempSecret` only. -/
def mfaSetup (u : UserCred) (newSecret : String) : MfaSetupResult × UserCred :=
  if u.mfaEnabled then (.alreadyEnabled, u)
  else (.ok newSecret, { u with mfaTempSecret := some newSecret })

/-- The recovery-code generation loop in `exports.mfaConfirm`: 8 iterations,
each drawing 4 random bytes rendered as hex (`randHex i`), upper-casing the
plaintext code and hashing it with sha256 (`hash`).  Returns the plaintext
codes and the stored hashes. -/
def generateRecoveryCodes (randHex : Nat → String) (hash : String → String) :
    List String × List String :=
  ((List.range 8).map (fun i => toUpperCase (randHex i)),
   (List.range 8).map (fun i => hash (toUpperCase (randHex i))))

inductive MfaConfirmResult where
  | missingCode
  | noPendingSetup
  | invalidCode
  | ok (recoveryCodes : List String)
deriving Repr, DecidableEq

/-- `exports.mfaConfirm`: verify the submitted TOTP code against
`mfaTempSecret` (`totpVerify secret token`), then promote the temp secret,
enable MFA and store the 8 recovery-code hashes, returning the plaintexts
once. -/
def mfaConfirm (hash : String → String) (totpVerify : String → String → Bool)
    (randHex : Nat → String) (u : UserCred) (code : String) :
    MfaConfirmResult × UserCred :=
  if code = "" then (.missingCode, u)
  else
    match u.mfaTempSecret with
    | none => (.noPendingSetup, u)
    | some temp =>
        if ¬ totpVerify temp code then (.invalidCode, u)
        else
          let codes := generateRecoveryCodes randHex hash
          (.ok codes.1,
           { u with
               mfaEnabled := true
               mfaSecret := some temp
               mfaTempSecret := none
               mfaRecoveryCodes := codes.2 })

inductive MfaVerifyResult where
  | missingInput
  | notEnabled
  | invalid
  | ok
deriving Repr, DecidableEq

/-- `exports.mfaVerify` after the MFA-challenge token has resolved to the
user: the TOTP path checks `code` against `mfaSecret`; the recovery path
hashes the upper-cased submitted code, finds its first occurrence in
`mfaRecoveryCodes` and splices it out (one-time use) before succeeding. -/
def mfaVerify (hash : String → String) (totpVerify : String → String → Bool)
    (u : UserCred) (code recoveryCode : Option String) :
    MfaVerifyResult × UserCred :=
  if ¬ strTruthy code ∧ ¬ strTruthy recoveryCode then (.missingInput, u)
  else if ¬ u.mfaEnabled then (.notEnabled, u)
  else if strTruthy code then
    if totpVerify (u.mfaSecret.getD "") (code.getD "") then (.ok, u)
    else (.invalid, u)
  else
    match findIndex (fun h => h = hash (toUpperCase (recoveryCode.getD ""))) u.mfaRecoveryCodes with
    | some i => (.ok, { u with mfaRecoveryCodes := u.mfaRecoveryCodes.eraseIdx i })
    | none => (.invalid, u)

inductive MfaDisableResult where
  | missingPassword
  | missingCode
  | notEnabled
  | wrongPassword
  | invalidCode
  | ok
deriving Repr, DecidableEq

/-- `exports.mfaDisable`: require the current password and a valid TOTP or
recovery code; on success clear `mfaSecret`, `mfaTempSecret`,
`mfaRecoveryCodes` and set `mfaEnabled := false`. -/
def mfaDisable (hash : String → String) (totpVerify : String → String → Bool)
    (compareFn : String → String → Bool) (u : UserCred) (password : String)
    (code recoveryCode : Option String) : MfaDisableResult × UserCred :=
  if password = "" then (.missingPassword, u)
  else if ¬ strTruthy code ∧ ¬ strTruthy recoveryCode then (.missingCode, u)
  else if ¬ u.mfaEnabled then (.notEnabled, u)
  else if ¬ compareFn password u.password then (.wrongPassword, u)
  else if strTruthy code then
    if totpVerify (u.mfaSecret.getD "") (code.getD "") then
      (.ok, { u with mfaEnabled := false, mfaSecret := none,
                     mfaTempSecret := none, mfaRecoveryCodes := [] })
    else (.invalidCode, u)
  else
    match findIndex (fun h => h = hash (toUpperCase (recoveryCode.getD ""))) u.mfaRecoveryCodes with
    | some _ =>
        (.ok, { u with mfaEnabled := false, mfaSecret := none,
                       mfaTempSecret := none, mfaRecoveryCodes := [] })
    | none => (.invalidCode, u)

/-- The user record created by `exports.register`: fresh identity, empty
history, the 90-day expiry, and all MFA / lockout fields at their schema
defaults. -/
def registerUser (now : Nat) (hashedPassword : String) : UserCred :=
  { password := hashedPassword
    passwordHistory := []
    passwordChangedAt := now
    passwordExpiresAt := some (now + PASSWORD_EXPIRY_DAYS * 24 * 60 * 60 * 1000)
    failedLoginAttempts := 0
    lockUntil := none
    mfaEnabled := false
    mfaSecret := none
    mfaTempSecret := none
    mfaRecoveryCodes := [] }

/-! ### Demo values used by witnesses and counterexamples -/

/-- A deterministic stand-in for the bcrypt hash function. -/
def demoHash (s : String) : String := "H:" ++ s

/-- A deterministic stand-in for `bcrypt.compare` matching `demoHash`. -/
def demoCompare (p h : String) : Bool := h == demoHash p

/-- A concrete user record with the hash of the password "Secret1!". -/
def baseUser : UserCred :=
  { password := demoHash "Secret1!"
    passwordHistory := []
    passwordChangedAt := 0
    passwordExpiresAt := none
    failedLoginAttempts := 0
    lockUntil := none
    mfaEnabled := false
    mfaSecret := none
    mfaTempSecret := none
    mfaRecoveryCodes := [] }

/-! ### Derived definitions used by the theorems -/

/-- The data-model invariant: the TOTP secret is present exactly when MFA is
enabled. -/
def mfaInvariant (u : UserCred) : Prop := u.mfaSecret.isSome = u.mfaEnabled

/-- A sequence of failed login attempts registered with the controller's
parameters (`maxAttempts = 5`, `lockMinutes = 30`), one per timestamp. -/
def failN (ts : List Nat) (u : UserCred) : UserCred :=
  ts.foldl (fun acc t => registerFailedLogin t 5 30 acc) u

/-- A concrete MFA-enabled account holding the hashes of the recovery codes
"A1B2C3D4" and "E5F60718". -/
def c4User : UserCred :=
  { baseUser with
      mfaEnabled := true
      mfaSecret := some "S"
      mfaRecoveryCodes := [demoHash "A1B2C3D4", demoHash "E5F60718"] }

/-- One successful password change in the demo world: the state after
`changePassword` with the deterministic hash/compare pair. -/
def c5step (u : UserCred) (oldPw newPw : String) : UserCred :=
  (changePassword 0 u oldPw newPw demoCompare demoHash).2

/-- The account after holding password P1 and changing P1 to P2 to P3 to P4
to P5 to P6 (five changes, history cap 5). -/
def c5u6 : UserCred :=
  c5step (c5step (c5step (c5step (c5step
    { baseUser with password := demoHash "Aa1!pass1" }
    "Aa1!pass1" "Aa1!pass2") "Aa1!pass2" "Aa1!pass3") "Aa1!pass3" "Aa1!pass4")
    "Aa1!pass4" "Aa1!pass5") "Aa1!pass5" "Aa1!pass6"

/-! ### Claim C7: lazy expiry of an elapsed lock -/

/-- Claim C7: for every account whose `lockUntil` timestamp lies in the past,
the next `isLocked` call returns false and, as a side effect, clears
`lockUntil` and zeroes `failedLoginAttempts`. -/
theorem isLocked_lazy_expiry (now T : Nat) (u : UserCred)
    (h : u.lockUntil = some T) (hp : T < now) :
    isLocked now u =
      (false, { u with lockUntil := none, failedLoginAttempts := 0 }) := by
  have hnl : ¬ now < T := by omega
  simp [isLocked, h, hnl]

/-- Witness for C7 at a concrete locked-in-the-past account. -/
theorem isLocked_lazy_expiry_witness :
    { baseUser with lockUntil := some 50, failedLoginAttempts := 5 }.lockUntil = some 50 ∧
    isLocked 100 { baseUser with lockUntil := some 50, failedLoginAttempts := 5 } =
      (false, { baseUser with lockUntil := none, failedLoginAttempts := 0 }) :=
  ⟨rfl, isLocked_lazy_expiry 100 50
    { baseUser with lockUntil := some 50, failedLoginAttempts := 5 } rfl (by decide)⟩

/-! ### Claim C8: an active lock is never extended -/

/-- Claim C8: for every account whose lock is currently active (`lockUntil`
non-null and in the future), `registerFailedLogin` leaves `lockUntil`
unchanged: further failed attempts never extend or reset an active lock. -/
theorem registerFailedLogin_preserves_active_lock
    (now maxAttempts lockMinutes T : Nat) (u : UserCred)
    (h : u.lockUntil = some T) (hf : now < T) :
    (registerFailedLogin now maxAttempts lockMinutes u).lockUntil = some T := by
  have hnle : ¬ T ≤ now := by omega
  simp [registerFailedLogin, h, hnle]

/-- Witness for C8 on a concrete actively locked account. -/
theorem registerFailedLogin_preserves_active_lock_witness :
    { baseUser with lockUntil := some 900, failedLoginAttempts := 5 }.lockUntil = some 900 ∧
    (registerFailedLogin 100 5 30
      { baseUser with lockUntil := some 900, failedLoginAttempts := 5 }).lockUntil = some 900 :=
  ⟨rfl, registerFailedLogin_preserves_active_lock 100 5 30 900
    { baseUser with lockUntil := some 900, failedLoginAttempts := 5 } rfl (by decide)⟩

/-! ### Claim C9: `mfaSecret` is non-null iff `mfaEnabled` -/

/-- Claim C9: the invariant "`mfaSecret` is non-null iff `mfaEnabled`" holds
for a freshly registered credential and is preserved by every MFA operation:
setup writes only `mfaTempSecret`, confirm sets `mfaSecret` and
`mfaEnabled := true` together, verify touches only the recovery codes, and
disable clears `mfaSecret` and sets `mfaEnabled := false` together. -/
theorem mfa_secret_iff_enabled_invariant
    (hash : String → String) (totpVerify : String → String → Bool)
    (randHex : Nat → String) (compareFn : String → String → Bool)
    (now : Nat) (hp s c pw : String) (codeOpt recOpt : Option String)
    (u : UserCred) (hu : mfaInvariant u) :
    mfaInvariant (registerUser now hp) ∧
    mfaInvariant (mfaSetup u s).2 ∧
    mfaInvariant (mfaConfirm hash totpVerify randHex u c).2 ∧
    mfaInvariant (mfaVerify hash totpVerify u codeOpt recOpt).2 ∧
    mfaInvariant (mfaDisable hash totpVerify compareFn u pw codeOpt recOpt).2 := by
  refine ⟨rfl, ?_, ?_, ?_, ?_⟩
  · by_cases he : u.mfaEnabled <;> simpa [mfaSetup, he, mfaInvariant] using hu
  · by_cases hc : c = ""
    · simpa [mfaConfirm, hc] using hu
    · rcases hts : u.mfaTempSecret with _ | temp
      · simpa [mfaConfirm, hc, hts] using hu
      · by_cases hv : totpVerify temp c
        · simp [mfaConfirm, hc, hts, hv, mfaInvariant]
        · simpa [mfaConfirm, hc, hts, hv] using hu
  · unfold mfaVerify
    split
    · exact hu
    · split
      · exact hu
      · split
        · split <;> exact hu
        · split
          · simpa [mfaInvariant] using hu
          · exact hu
  · unfold mfaDisable
    split
    · exact hu
    · split
      · exact hu
      · split
        · exact hu
        · split
          · exact hu
          · split
            · split
              · simp [mfaInvariant]
              · exact hu
            · split
              · simp [mfaInvariant]
              · exact hu

/-- Witness for C9 on a concrete enabled-MFA record. -/
theorem mfa_secret_iff_enabled_invariant_witness :
    mfaInvariant { baseUser with mfaEnabled := true, mfaSecret := some "S" } ∧
    mfaInvariant (mfaSetup { baseUser with mfaEnabled := true, mfaSecret := some "S" } "T").2 :=
  ⟨rfl,
   (mfa_secret_iff_enabled_invariant demoHash (fun _ _ => true) (fun _ => "ab")
      demoCompare 0 "hp" "T" "123456" "Secret1!" none none
      { baseUser with mfaEnabled := true, mfaSecret := some "S" } rfl).2.1⟩

/-! ### Claim C3: lockout after exactly five failed attempts -/

/-- Claim C3: starting from `failedLoginAttempts = 0` with no lock, four
failed attempts never lock the account, the fifth locks it until
`t5 + 30 minutes`, and a sixth login inside the lock window is rejected with
status 423 whatever password is submitted — the lock check runs strictly
before password verification. -/
theorem lockout_after_five_failed_attempts
    (t1 t2 t3 t4 t5 t6 : Nat) (u : UserCred)
    (h0 : u.failedLoginAttempts = 0) (hl : u.lockUntil = none)
    (h6 : t6 < t5 + 30 * 60 * 1000) (pw : String) (cmp : String → String → Bool) :
    (∀ t, (isLocked t (failN [t1, t2, t3, t4] u)).1 = false) ∧
    (failN [t1, t2, t3, t4, t5] u).lockUntil = some (t5 + 30 * 60 * 1000) ∧
    (isLocked t6 (failN [t1, t2, t3, t4, t5] u)).1 = true ∧
    (login t6 (some (failN [t1, t2, t3, t4, t5] u)) pw cmp).1.status = 423 := by
  have e1 : registerFailedLogin t1 5 30 u = { u with failedLoginAttempts := 1 } := by
    simp [registerFailedLogin, hl, h0]
  have e2 : registerFailedLogin t2 5 30 { u with failedLoginAttempts := 1 } =
      { u with failedLoginAttempts := 2 } := by
    simp [registerFailedLogin, hl]
  have e3 : registerFailedLogin t3 5 30 { u with failedLoginAttempts := 2 } =
      { u with failedLoginAttempts := 3 } := by
    simp [registerFailedLogin, hl]
  have e4 : registerFailedLogin t4 5 30 { u with failedLoginAttempts := 3 } =
      { u with failedLoginAttempts := 4 } := by
    simp [registerFailedLogin, hl]
  have e5 : registerFailedLogin t5 5 30 { u with failedLoginAttempts := 4 } =
      { u with failedLoginAttempts := 5, lockUntil := some (t5 + 30 * 60 * 1000) } := by
    simp [registerFailedLogin, hl]
  have h4 : failN [t1, t2, t3, t4] u = { u with failedLoginAttempts := 4 } := by
    simp [failN, e1, e2, e3, e4]
  have h5 : failN [t1, t2, t3, t4, t5] u =
      { u with failedLoginAttempts := 5, lockUntil := some (t5 + 30 * 60 * 1000) } := by
    simp [failN, e1, e2, e3, e4, e5]
  refine ⟨?_, ?_, ?_, ?_⟩
  · intro t
    simp [h4, isLocked, hl]
  · simp [h5]
  · simp [h5, isLocked, h6]
  · simp [login, h5, isLocked, h6]

/-- Witness for C3: a concrete account locked by five wrong-password attempts
at times 1..5 and rejected with 423 at time 20, even with the correct
password supplied. -/
theorem lockout_after_five_failed_attempts_witness :
    baseUser.failedLoginAttempts = 0 ∧ baseUser.lockUntil = none ∧
    (isLocked 20 (failN [1, 2, 3, 4, 5] baseUser)).1 = true ∧
    (login 20 (some (failN [1, 2, 3, 4, 5] baseUser)) "Secret1!" demoCompare).1.status = 423 :=
  ⟨rfl, rfl,
   (lockout_after_five_failed_attempts 1 2 3 4 5 20 baseUser rfl rfl (by decide)
      "Secret1!" demoCompare).2.2.1,
   (lockout_after_five_failed_attempts 1 2 3 4 5 20 baseUser rfl rfl (by decide)
      "Secret1!" demoCompare).2.2.2⟩

/-! ### Claim C2: when the failed-attempt counters are reset -/

/-- Counterexample to claim C2: an MFA-enabled account with 3 failed attempts
logs in with the correct password; the response is the `mfaRequired`
challenge (MFA has not yet been verified), yet the persisted record already
has `failedLoginAttempts = 0` and `lockUntil = null` — `resetLoginAttempts`
was invoked on a login where only the password had been verified. -/
theorem reset_attempts_before_mfa_counterexample :
    (login 1000 (some { baseUser with mfaEnabled := true, mfaSecret := some "S", failedLoginAttempts := 3 }) "Secret1!" demoCompare).1.mfaRequired = true ∧
    (login 1000 (some { baseUser with mfaEnabled := true, mfaSecret := some "S", failedLoginAttempts := 3 }) "Secret1!" demoCompare).1.status = 200 ∧
    (login 1000 (some { baseUser with mfaEnabled := true, mfaSecret := some "S", failedLoginAttempts := 3 }) "Secret1!" demoCompare).2 =
      some { baseUser with
              mfaEnabled := true
              mfaSecret := some "S"
              failedLoginAttempts := 0
              lockUntil := none } := by decide

/-- Amended claim C2: `resetLoginAttempts` is invoked as soon as the password
check succeeds and strictly before the MFA branch — for an `mfaEnabled`
account a correct-password login zeroes `failedLoginAttempts` and clears
`lockUntil` even though MFA has not yet been verified, and `mfaVerify`
itself never modifies those two fields. -/
theorem reset_attempts_on_password_success_before_mfa
    (now : Nat) (u : UserCred) (pw : String) (cmp : String → String → Bool)
    (hl : u.lockUntil = none) (hm : cmp pw u.password = true)
    (hmfa : u.mfaEnabled = true) (hexp : u.passwordExpiresAt = none)
    (hash : String → String) (tv : String → String → Bool)
    (c rc : Option String) (u2 : UserCred) :
    (login now (some u) pw cmp).1.mfaRequired = true ∧
    (login now (some u) pw cmp).2 =
      some { u with failedLoginAttempts := 0, lockUntil := none } ∧
    (mfaVerify hash tv u2 c rc).2.failedLoginAttempts = u2.failedLoginAttempts ∧
    (mfaVerify hash tv u2 c rc).2.lockUntil = u2.lockUntil := by
  have hlg : login now (some u) pw cmp =
      ({ status := 200, message := "", mfaRequired := true,
         passwordExpiresAt := none },
       some { u with failedLoginAttempts := 0, lockUntil := none }) := by
    simp [login, isLocked, hl, hm, resetLoginAttempts, isPasswordExpired, hexp, hmfa]
  refine ⟨by simp [hlg], by simp [hlg], ?_, ?_⟩
  · unfold mfaVerify
    split
    · rfl
    · split
      · rfl
      · split
        · split <;> rfl
        · split <;> rfl
  · unfold mfaVerify
    split
    · rfl
    · split
      · rfl
      · split
        · split <;> rfl
        · split <;> rfl

/-- Witness for the amended C2 at a concrete MFA-enabled account. -/
theorem reset_attempts_on_password_success_before_mfa_witness :
    (login 7 (some { baseUser with mfaEnabled := true, mfaSecret := some "S", failedLoginAttempts := 4 }) "Secret1!" demoCompare).1.mfaRequired = true ∧
    (login 7 (some { baseUser with mfaEnabled := true, mfaSecret := some "S", failedLoginAttempts := 4 }) "Secret1!" demoCompare).2 =
      some { baseUser with
              mfaEnabled := true
              mfaSecret := some "S"
              failedLoginAttempts := 0
              lockUntil := none } :=
  ⟨(reset_attempts_on_password_success_before_mfa 7
      { baseUser with mfaEnabled := true, mfaSecret := some "S", failedLoginAttempts := 4 }
      "Secret1!" demoCompare rfl (by decide) rfl rfl demoHash (fun _ _ => true)
      none none baseUser).1,
   (reset_attempts_on_password_success_before_mfa 7
      { baseUser with mfaEnabled := true, mfaSecret := some "S", failedLoginAttempts := 4 }
      "Secret1!" demoCompare rfl (by decide) rfl rfl demoHash (fun _ _ => true)
      none none baseUser).2.1⟩

/-! ### Claim C6: unknown email vs wrong password indistinguishability -/

/-- Counterexample to claim C6: on the admin login entry point an unknown
email is answered with 404 "Admin not found or unauthorized" while a known
admin with a wrong password gets 401 "Invalid password" — different status
and different message, so the two failures are distinguishable there. -/
theorem admin_login_distinguishes_counterexample :
    (loginAdmin none "AnyPw1!" demoCompare).status = 404 ∧
    (loginAdmin (some baseUser) "WrongPw1!" demoCompare).status = 401 ∧
    (loginAdmin none "AnyPw1!" demoCompare).message ≠
      (loginAdmin (some baseUser) "WrongPw1!" demoCompare).message := by decide

/-- Amended claim C6: on the user login endpoint, whenever the failed
attempt does not leave the account locked, an unknown email and a known
email with a wrong password receive the identical response (401, message
"Invalid email or password"); the admin login endpoint, however,
distinguishes the two cases: 404 "Admin not found or unauthorized" for an
unknown admin versus 401 "Invalid password" for a wrong password. -/
theorem invalid_credentials_indistinguishable_on_user_login
    (now : Nat) (u a : UserCred) (pwU pwK pwA : String)
    (cmp : String → String → Bool)
    (hl : u.lockUntil = none) (hw : cmp pwK u.password = false)
    (hnl : (registerFailedLogin now 5 30 u).lockUntil = none)
    (ha : cmp pwA a.password = false) :
    (login now none pwU cmp).1 = (login now (some u) pwK cmp).1 ∧
    (login now none pwU cmp).1.status = 401 ∧
    (login now none pwU cmp).1.message = invalidCredMsg ∧
    loginAdmin none pwA cmp =
      { status := 404, message := "Admin not found or unauthorized" } ∧
    loginAdmin (some a) pwA cmp = { status := 401, message := "Invalid password" } := by
  refine ⟨?_, rfl, rfl, rfl, ?_⟩
  · simp [login, isLocked, hl, hw, hnl]
  · simp [loginAdmin, ha]

/-- Witness for the amended C6 at concrete accounts. -/
theorem invalid_credentials_indistinguishable_on_user_login_witness :
    (login 5 none "WrongPw1!" demoCompare).1 =
      (login 5 (some baseUser) "WrongPw1!" demoCompare).1 ∧
    loginAdmin (some baseUser) "WrongPw1!" demoCompare =
      { status := 401, message := "Invalid password" } :=
  ⟨(invalid_credentials_indistinguishable_on_user_login 5 baseUser baseUser
      "WrongPw1!" "WrongPw1!" "WrongPw1!" demoCompare rfl (by decide)
      (by decide) (by decide)).1,
   (invalid_credentials_indistinguishable_on_user_login 5 baseUser baseUser
      "WrongPw1!" "WrongPw1!" "WrongPw1!" demoCompare rfl (by decide)
      (by decide) (by decide)).2.2.2.2⟩

/-! ### Claim C1: exposure of the password hash -/

/-- Claim C1 exhibit: the code contradicts the claim.  A successful login of
a non-MFA user (and a successful admin login) serializes the user document
fetched with `select(+password)` straight into the 200 response body, so the
body's `user.password` equals the stored bcrypt hash.  (The register and
mfa/verify handlers, by contrast, build an explicit safe payload without the
password — the login handlers are the slip.) -/
theorem login_success_body_contains_password_hash :
    (login 1000 (some baseUser) "Secret1!" demoCompare).1.status = 200 ∧
    ((login 1000 (some baseUser) "Secret1!" demoCompare).1.user).map UserCred.password =
      some baseUser.password ∧
    ((loginAdmin (some baseUser) "Secret1!" demoCompare).user).map UserCred.password =
      some baseUser.password := by decide

/-! ### Claim C4: recovery codes are one-time use -/

/-- `findIndex` finds nothing when the sought element is absent. -/
theorem findIndex_eq_none_of_not_mem (x : String) (l : List String) (h : x ∉ l) :
    findIndex (fun y => y = x) l = none := by
  induction l with
  | nil => rfl
  | cons a t ih =>
      have hax : ¬ (a = x) := fun hax => h (hax ▸ List.mem_cons_self a t)
      have ht : x ∉ t := fun hm => h (List.mem_cons_of_mem a hm)
      simp [findIndex, hax, ih ht]

/-- `findIndex` succeeds on any present element. -/
theorem findIndex_isSome_of_mem (x : String) (l : List String) (h : x ∈ l) :
    ∃ i, findIndex (fun y => y = x) l = some i := by
  induction l with
  | nil => exact absurd h (List.not_mem_nil x)
  | cons a t ih =>
      by_cases hax : a = x
      · exact ⟨0, by simp [findIndex, hax]⟩
      · rcases List.mem_cons.mp h with h1 | h2
        · exact absurd h1.symm hax
        · obtain ⟨j, hj⟩ := ih h2
          exact ⟨j + 1, by simp [findIndex, hax, hj]⟩

/-- Splicing out the first occurrence of `x` (at the index `findIndex`
returns) removes `x` entirely from a duplicate-free list. -/
theorem not_mem_eraseIdx_findIndex (x : String) (l : List String) (i : Nat)
    (hnd : l.Nodup) (h : findIndex (fun y => y = x) l = some i) :
    x ∉ l.eraseIdx i := by
  induction l generalizing i with
  | nil => simp [findIndex] at h
  | cons a t ih =>
      by_cases hax : a = x
      · have hi : i = 0 := by
          have h0 : (0 : Nat) = i := by simpa [findIndex, hax] using h
          exact h0.symm
        subst hi
        subst hax
        simpa [List.eraseIdx] using (List.nodup_cons.mp hnd).1
      · have h' : ∃ j, findIndex (fun y => y = x) t = some j ∧ i = j + 1 := by
          rcases hfi : findIndex (fun y => y = x) t with _ | j
          · simp [findIndex, hax, hfi] at h
          · refine ⟨j, rfl, ?_⟩
            simpa [findIndex, hax, hfi] using h.symm
        obtain ⟨j, hj, hi⟩ := h'
        subst hi
        simp only [List.eraseIdx, List.mem_cons]
        rintro (rfl | hm)
        · exact hax rfl
        · exact ih j (List.nodup_cons.mp hnd).2 hj hm

/-- Claim C4: MFA confirmation issues exactly 8 recovery codes (and stores
exactly 8 hashes), and each code is redeemable via mfa/verify at most once:
when `mfaRecoveryCodes` is duplicate-free, a successful redemption removes
the code's hash from the stored list before success is returned, an
immediate retry of the same code fails, and every recovery redemption can
only shrink the stored list (so the hash never reappears later). -/
theorem recovery_codes_single_use
    (hash : String → String) (randHex : Nat → String)
    (tv : String → String → Bool) (u : UserCred) (rc : String)
    (hnd : u.mfaRecoveryCodes.Nodup) :
    (generateRecoveryCodes randHex hash).1.length = 8 ∧
    (generateRecoveryCodes randHex hash).2.length = 8 ∧
    ((mfaVerify hash tv u none (some rc)).1 = MfaVerifyResult.ok →
      hash (toUpperCase rc) ∉ (mfaVerify hash tv u none (some rc)).2.mfaRecoveryCodes ∧
      (mfaVerify hash tv (mfaVerify hash tv u none (some rc)).2 none (some rc)).1 =
        MfaVerifyResult.invalid) ∧
    (∀ v : UserCred, ∀ rc2 : String,
      ((mfaVerify hash tv v none (some rc2)).2.mfaRecoveryCodes).Sublist
        v.mfaRecoveryCodes) := by
  refine ⟨by simp [generateRecoveryCodes], by simp [generateRecoveryCodes], ?_, ?_⟩
  · by_cases hrc : rc = ""
    · intro hok
      simp [mfaVerify, strTruthy, hrc] at hok
    · by_cases hen : u.mfaEnabled
      · rcases hfi : findIndex (fun y => y = hash (toUpperCase rc)) u.mfaRecoveryCodes with _ | i
        · intro hok
          simp [mfaVerify, strTruthy, hrc, hen, hfi] at hok
        · intro _
          have hnm : hash (toUpperCase rc) ∉ u.mfaRecoveryCodes.eraseIdx i :=
            not_mem_eraseIdx_findIndex _ _ _ hnd hfi
          have hstate : (mfaVerify hash tv u none (some rc)).2 =
              { u with mfaRecoveryCodes := u.mfaRecoveryCodes.eraseIdx i } := by
            simp [mfaVerify, strTruthy, hrc, hen, hfi]
          have hfi2 : findIndex (fun y => y = hash (toUpperCase rc))
              (u.mfaRecoveryCodes.eraseIdx i) = none :=
            findIndex_eq_none_of_not_mem _ _ hnm
          constructor
          · rw [hstate]
            exact hnm
          · rw [hstate]
            simp [mfaVerify, strTruthy, hrc, hen, hfi2]
      · intro hok
        simp [mfaVerify, strTruthy, hrc, hen] at hok
  · intro v rc2
    by_cases hrc : rc2 = ""
    · simp [mfaVerify, strTruthy, hrc]
    · by_cases hen : v.mfaEnabled
      · rcases hfi : findIndex (fun y => y = hash (toUpperCase rc2)) v.mfaRecoveryCodes with _ | i
        · simp [mfaVerify, strTruthy, hrc, hen, hfi]
        · simpa [mfaVerify, strTruthy, hrc, hen, hfi] using List.eraseIdx_sublist _ i
      · simp [mfaVerify, strTruthy, hrc, hen]

/-- Witness for C4: the demo account's code list is duplicate-free, the first
redemption of "A1B2C3D4" succeeds, and the theorem's conclusions hold for
it. -/
theorem recovery_codes_single_use_witness :
    c4User.mfaRecoveryCodes.Nodup ∧
    (mfaVerify demoHash (fun _ _ => false) c4User none (some "A1B2C3D4")).1 =
      MfaVerifyResult.ok ∧
    (generateRecoveryCodes (fun _ => "ab12cd34") demoHash).1.length = 8 ∧
    ((mfaVerify demoHash (fun _ _ => false) c4User none (some "A1B2C3D4")).1 =
        MfaVerifyResult.ok →
      demoHash (toUpperCase "A1B2C3D4") ∉
        (mfaVerify demoHash (fun _ _ => false) c4User none
          (some "A1B2C3D4")).2.mfaRecoveryCodes ∧
      (mfaVerify demoHash (fun _ _ => false)
        (mfaVerify demoHash (fun _ _ => false) c4User none (some "A1B2C3D4")).2
        none (some "A1B2C3D4")).1 = MfaVerifyResult.invalid) :=
  ⟨by decide, by decide,
   (recovery_codes_single_use demoHash (fun _ => "ab12cd34") (fun _ _ => false)
      c4User "A1B2C3D4" (by decide)).1,
   (recovery_codes_single_use demoHash (fun _ => "ab12cd34") (fun _ _ => false)
      c4User "A1B2C3D4" (by decide)).2.2.1⟩

/-! ### Claim C10: recovery codes are case-insensitive on redemption -/

/-- Claim C10: the stored recovery hashes are exactly the hashes of the
issued (upper-cased hex) plaintext codes, and redemption upper-cases the
submitted code before hashing, so any lettercase variant `v` of an issued
code `c` (that is, `toUpperCase v = c`) redeems successfully both in
mfa/verify and in mfa/disable. -/
theorem recovery_code_case_insensitive
    (hash : String → String) (tv : String → String → Bool)
    (cmp : String → String → Bool) (randHex : Nat → String)
    (u : UserCred) (c v pw : String)
    (hen : u.mfaEnabled = true)
    (hmem : hash c ∈ u.mfaRecoveryCodes)
    (hv : toUpperCase v = c) (hne : v ≠ "")
    (hpw : cmp pw u.password = true) (hpwne : pw ≠ "") :
    (generateRecoveryCodes randHex hash).2 =
      ((generateRecoveryCodes randHex hash).1).map hash ∧
    (mfaVerify hash tv u none (some v)).1 = MfaVerifyResult.ok ∧
    (mfaDisable hash tv cmp u pw none (some v)).1 = MfaDisableResult.ok := by
  obtain ⟨i, hi⟩ := findIndex_isSome_of_mem (hash c) u.mfaRecoveryCodes hmem
  refine ⟨by simp [generateRecoveryCodes], ?_, ?_⟩
  · simp [mfaVerify, strTruthy, hne, hen, hv, hi]
  · simp [mfaDisable, strTruthy, hne, hen, hpw, hpwne, hv, hi]

/-- Witness for C10: the lowercase rendering of the issued code "A1B2C3D4"
redeems on the concrete MFA-enabled account. -/
theorem recovery_code_case_insensitive_witness :
    toUpperCase "a1b2c3d4" = "A1B2C3D4" ∧
    (mfaVerify demoHash (fun _ _ => false) c4User none (some "a1b2c3d4")).1 =
      MfaVerifyResult.ok ∧
    (mfaDisable demoHash (fun _ _ => false) demoCompare c4User "Secret1!" none
      (some "a1b2c3d4")).1 = MfaDisableResult.ok :=
  ⟨by decide,
   (recovery_code_case_insensitive demoHash (fun _ _ => false) demoCompare
      (fun _ => "ab12cd34") c4User "A1B2C3D4" "a1b2c3d4" "Secret1!" rfl
      (by decide) (by decide) (by decide) (by decide) (by decide)).2.1,
   (recovery_code_case_insensitive demoHash (fun _ _ => false) demoCompare
      (fun _ => "ab12cd34") c4User "A1B2C3D4" "a1b2c3d4" "Secret1!" rfl
      (by decide) (by decide) (by decide) (by decide) (by decide)).2.2⟩

/-! ### Claim C5: password history eviction after six passwords -/

/-- Counterexample to claim C5: after the change sequence P1 to P6 the
history still holds all five previous hashes including P1's — five changes
put exactly 5 entries in the cap-5 history, so P1 is NOT evicted — and an
attempt to reuse P1's plaintext is rejected as a reused password, not
accepted as the claim states. -/
theorem password_history_h1_rejected_counterexample :
    c5u6.passwordHistory =
      [demoHash "Aa1!pass5", demoHash "Aa1!pass4", demoHash "Aa1!pass3",
       demoHash "Aa1!pass2", demoHash "Aa1!pass1"] ∧
    isPasswordReused "Aa1!pass1" demoCompare c5u6 = true ∧
    (changePassword 0 c5u6 "Aa1!pass6" "Aa1!pass1" demoCompare demoHash).1 =
      ChangePwResp.badRequest ERR_REUSED_PASSWORD [] := by decide

/-- Amended claim C5: after the change sequence P1 to P2 to P3 to P4 to P5
to P6 the cap-5 history holds exactly the hashes of P5, P4, P3, P2, P1, so
reusing the plaintext of ANY of P1 through P5 is rejected as reused and P6
is rejected as equal to the current password; P1 is evicted (and its
plaintext accepted again) only after one further change, to P7. -/
theorem password_history_reuse_after_six :
    (changePassword 0 c5u6 "Aa1!pass6" "Aa1!pass1" demoCompare demoHash).1 =
      ChangePwResp.badRequest ERR_REUSED_PASSWORD [] ∧
    (changePassword 0 c5u6 "Aa1!pass6" "Aa1!pass2" demoCompare demoHash).1 =
      ChangePwResp.badRequest ERR_REUSED_PASSWORD [] ∧
    (changePassword 0 c5u6 "Aa1!pass6" "Aa1!pass3" demoCompare demoHash).1 =
      ChangePwResp.badRequest ERR_REUSED_PASSWORD [] ∧
    (changePassword 0 c5u6 "Aa1!pass6" "Aa1!pass4" demoCompare demoHash).1 =
      ChangePwResp.badRequest ERR_REUSED_PASSWORD [] ∧
    (changePassword 0 c5u6 "Aa1!pass6" "Aa1!pass5" demoCompare demoHash).1 =
      ChangePwResp.badRequest ERR_REUSED_PASSWORD [] ∧
    (changePassword 0 c5u6 "Aa1!pass6" "Aa1!pass6" demoCompare demoHash).1 =
      ChangePwResp.badRequest "New password must be different from current password" [] ∧
    (c5step c5u6 "Aa1!pass6" "Aa1!pass7").passwordHistory =
      [demoHash "Aa1!pass6", demoHash "Aa1!pass5", demoHash "Aa1!pass4",
       demoHash "Aa1!pass3", demoHash "Aa1!pass2"] ∧
    (changePassword 0 (c5step c5u6 "Aa1!pass6" "Aa1!pass7") "Aa1!pass7" "Aa1!pass1"
        demoCompare demoHash).1 =
      ChangePwResp.ok "Password changed successfully" (some 7776000000) := by decide

end LawyerUp
